import Mathlib

/-!
Verification of the PR-review pipeline (`src/main.py`) of ai-reporecommender.

The pipeline is six sequential steps: read a GitHub event file, project PR
details out of it, fetch a diff (stub), filter changed files against
comma-separated glob exclusion patterns, ask a language model for review
comments, and print the comments (stub).

The embedding below translates each Python function into a Lean definition:
dictionaries with optional keys become structures with `Option` fields,
`str.strip` / `str.split` become explicit character-list functions with
Python semantics (`"".split(",") = [""]`), `fnmatch.fnmatch` becomes a
shell-glob matcher over character lists (`*`, `?`, `[...]`, `[!...]`,
ranges, unclosed `[` literal — POSIX case sensitivity), exceptions become
`Except`, and the external collaborators (filesystem, JSON parser, language
model) become function parameters.
-/

/-- Python whitespace characters recognised by `str.strip` (ASCII part). -/
def isPySpace (c : Char) : Bool :=
  c = ' ' || c = '\t' || c = '\n' || c = '\r' || c = '\x0b' || c = '\x0c'

/-- Python `str.strip()`: drop leading and trailing whitespace. -/
def pyStrip (s : String) : String :=
  String.mk (((s.toList.dropWhile isPySpace).reverse.dropWhile isPySpace).reverse)

/-- Helper for `pySplitComma`: accumulate the current field (reversed). -/
def splitCommaAux : List Char → List Char → List String
  | [], acc => [String.mk acc.reverse]
  | c :: rest, acc =>
    if c = ',' then String.mk acc.reverse :: splitCommaAux rest []
    else splitCommaAux rest (c :: acc)

/-- Python `s.split(",")`: split on every comma, keeping empty fields;
the empty string yields `[""]`. -/
def pySplitComma (s : String) : List String :=
  splitCommaAux s.toList []

/-- Scan a bracket expression for its closing `]`; returns the contents and
the remainder of the pattern, or `none` when the bracket is unclosed. -/
def scanClose : List Char → Option (List Char × List Char)
  | [] => none
  | c :: rest =>
    if c = ']' then some ([], rest)
    else (scanClose rest).map (fun pr => (c :: pr.1, pr.2))

/-- Parse the inside of a `[...]` glob bracket (the list starts just after
`[`): an optional leading `!` negates, a `]` directly after `[` or `[!` is
part of the set, and the scan then runs to the next `]`.  Returns
`(negated, set contents, rest of pattern)`, or `none` when no closing `]`
exists (in which case `[` is matched literally, as `fnmatch` does). -/
def parseBracket (l : List Char) : Option (Bool × List Char × List Char) :=
  let negAndBody : Bool × List Char :=
    match l with
    | c :: rest => if c = '!' then (true, rest) else (false, l)
    | [] => (false, l)
  match negAndBody.2 with
  | [] => none
  | c :: rest =>
    if c = ']' then
      (scanClose rest).map (fun pr => (negAndBody.1, ']' :: pr.1, pr.2))
    else
      (scanClose (c :: rest)).map (fun pr => (negAndBody.1, pr.1, pr.2))

/-- Does character `c` belong to a bracket set?  `a-b` (with `-` neither
first nor last) is a codepoint range; other characters match literally. -/
def memBracket (c : Char) : List Char → Bool
  | [] => false
  | a :: d :: b :: rest2 =>
    if d = '-' then (a ≤ c && c ≤ b) || memBracket c rest2
    else c = a || memBracket c (d :: b :: rest2)
  | a :: rest => c = a || memBracket c rest

/-- Glob matching with explicit fuel, so that the function is structurally
recursive (every recursive call strictly decreases
`pattern.length + s.length`, so `globAux (pattern.length + s.length)` is
total on reachable configurations; at fuel `0` both lists are empty). -/
def globAux : Nat → List Char → List Char → Bool
  | 0, _, s => s.isEmpty
  | fuel + 1, pat, s =>
    match pat with
    | [] => s.isEmpty
    | p :: ps =>
      if p = '*' then
        globAux fuel ps s ||
          (match s with
           | [] => false
           | _ :: cs => globAux fuel (p :: ps) cs)
      else if p = '?' then
        match s with
        | [] => false
        | _ :: cs => globAux fuel ps cs
      else if p = '[' then
        match parseBracket ps with
        | none =>
          match s with
          | [] => false
          | c :: cs => c = '[' && globAux fuel ps cs
        | some (neg, items, rest) =>
          match s with
          | [] => false
          | c :: cs => (memBracket c items != neg) && globAux fuel rest cs
      else
        match s with
        | [] => false
        | c :: cs => c = p && globAux fuel ps cs

/-- Full shell-glob match of a pattern against a character list. -/
def globMatch (pat s : List Char) : Bool :=
  globAux (pat.length + s.length) pat s

/-- Python `fnmatch.fnmatch(name, pat)` on a POSIX host (`os.path.normcase`
is the identity there): shell-glob match of `pat` against the whole of
`name`. -/
def fnmatch (name pat : String) : Bool :=
  globMatch pat.toList name.toList

/-- A changed file as `filter_files` / `analyze_code` see it: a dictionary
with optional keys `new_path` and `diff`. -/
structure FileDiff where
  new_path : Option String
  diff : Option String
deriving Repr, DecidableEq

/-- The exclusion patterns `filter_files` derives from the `INPUT_EXCLUDE`
configuration string: split on commas, each field stripped of surrounding
whitespace. -/
def excludePatterns (input_exclude : String) : List String :=
  (pySplitComma input_exclude).map pyStrip

/-- `filter_files` from `src/main.py`: keep the files whose `new_path`
(defaulting to `""` when the key is absent) matches none of the exclusion
patterns. -/
def filter_files (input_exclude : String) (file_diffs : List FileDiff) : List FileDiff :=
  file_diffs.filter (fun file =>
    ! (excludePatterns input_exclude).any
        (fun pattern => fnmatch (file.new_path.getD "") pattern))

/-- The `repository.owner` object of an event payload. -/
structure Owner where
  login : Option String
deriving Repr, DecidableEq

/-- The `repository` object of an event payload. -/
structure Repository where
  owner : Option Owner
  name : Option String
deriving Repr, DecidableEq

/-- The `pull_request` object of an event payload. -/
structure PullRequest where
  title : Option String
  body : Option String
deriving Repr, DecidableEq

/-- A GitHub webhook event payload, restricted to the keys the pipeline
reads; every key may be absent. -/
structure Event where
  repository : Option Repository
  number : Option Int
  pull_request : Option PullRequest
deriving Repr, DecidableEq

/-- The dictionary returned by `get_pr_details`: all five keys are always
present; `pull_number` carries the event's `number` value, which may be
`None`. -/
structure PRDetails where
  owner : String
  repo : String
  pull_number : Option Int
  title : String
  description : String
deriving Repr, DecidableEq

/-- `get_pr_details` from `src/main.py`: a pure projection of the event,
every lookup via `dict.get` with a default, so it never raises. -/
def get_pr_details (event_data : Event) : PRDetails :=
  let repository := event_data.repository.getD ⟨none, none⟩
  { owner := (repository.owner.getD ⟨none⟩).login.getD ""
    repo := repository.name.getD ""
    pull_number := event_data.number
    title := (event_data.pull_request.getD ⟨none, none⟩).title.getD ""
    description := (event_data.pull_request.getD ⟨none, none⟩).body.getD "" }

/-- The constant `ERROR_MESSAGE_EVENT_FILE` of `src/main.py`, already
formatted with the attempted path. -/
def ERROR_MESSAGE_EVENT_FILE (path : String) : String :=
  "No GitHub event file found at " ++ path

/-- `read_github_event` from `src/main.py`.  The filesystem is modelled as
a partial map from paths to file contents and `json.load` as an explicit
`parse` parameter: when the configured path names no existing file the
function raises `FileNotFoundError` with the formatted message, otherwise
it returns the parsed payload of the file. -/
def read_github_event (parse : String → Except String Event)
    (fs : String → Option String) (event_path : String) : Except String Event :=
  match fs event_path with
  | none => Except.error (ERROR_MESSAGE_EVENT_FILE event_path)
  | some content => parse content

/-- How Python renders the `pull_number` value inside an f-string:
an integer prints as its decimal digits, `None` prints as `None`. -/
def pyStrOfNumber : Option Int → String
  | none => "None"
  | some n => toString n

/-- `get_diff` from `src/main.py`: the stub returning descriptive text. -/
def get_diff (pr_details : PRDetails) : String :=
  "Dummy diff content for PR " ++ pyStrOfNumber pr_details.pull_number ++
    " from " ++ pr_details.owner ++ "/" ++ pr_details.repo

/-- The `AI_PROMPT_TEMPLATE` constant of `src/main.py` after
`PromptTemplate.format` substitutes the PR title, PR description and the
file's diff text. -/
def mkPrompt (pr_title pr_description diff : String) : String :=
  "\nAnalyze the following diff file from a pull request and generate useful comments for a code review. Include actionable recommendations.\nPull Request Title: " ++
    pr_title ++ "\nPull Request Description: " ++ pr_description ++
    "\nDiff File:\n" ++ diff ++
    "\nGenerate:\n- Comments for each code chunk, if improvements can be made.\n- Avoid duplicating recommendations or commenting on deleted files.\n"

/-- `analyze_code` from `src/main.py`.  The language model is modelled as a
function `llm` from the rendered prompt to the response text
(`ai_response.generations[0].text`).  Files whose `diff` is absent or empty
are skipped; a comment is appended only when the response text is
non-empty. -/
def analyze_code (llm : String → String) :
    List FileDiff → PRDetails → List String
  | [], _ => []
  | file :: rest, pr_details =>
    match file.diff with
    | none => analyze_code llm rest pr_details
    | some diff =>
      if diff = "" then analyze_code llm rest pr_details
      else
        let response := llm (mkPrompt pr_details.title pr_details.description diff)
        if response = "" then analyze_code llm rest pr_details
        else
          ("Comments for " ++ file.new_path.getD "unknown" ++ ":\n" ++ response) ::
            analyze_code llm rest pr_details

/-- `create_review_comment` from `src/main.py`: the stub prints one block
per comment; the returned list models the printed blocks, in order.  The
`pull_number` key is always present in a `PRDetails`, so the f-string
lookup never raises. -/
def create_review_comment (pr_details : PRDetails) (comments : List String) :
    List String :=
  comments.map (fun comment =>
    "Posting comment to PR " ++ pyStrOfNumber pr_details.pull_number ++ ":\n" ++ comment)

/-- The six tools of the review pipeline, in source order. -/
inductive ToolName where
  | readGithubEvent
  | getPrDetails
  | getDiff
  | filterFiles
  | analyzeCode
  | createReviewComment
deriving Repr, DecidableEq

/-- A `SequentialChain(chains=tools, verbose=True)` value. -/
structure SequentialChain where
  chains : List ToolName
  verbose : Bool
deriving Repr, DecidableEq

/-- Python errors `sequentialChainForAction` can raise. -/
inductive PyError where
  | unboundLocal (name : String)
deriving Repr, DecidableEq

/-- `sequentialChainForAction` from `src/main.py`: the `"prreview"` and
`""` branches each assign the same six-tool list; any other action leaves
the local variable `tools` unassigned, so the final
`SequentialChain(chains=tools, ...)` raises `UnboundLocalError`. -/
def sequentialChainForAction (action : String) : Except PyError SequentialChain :=
  if action = "prreview" then
    Except.ok
      ⟨[ToolName.readGithubEvent, ToolName.getPrDetails, ToolName.getDiff,
        ToolName.filterFiles, ToolName.analyzeCode, ToolName.createReviewComment], true⟩
  else if action = "" then
    Except.ok
      ⟨[ToolName.readGithubEvent, ToolName.getPrDetails, ToolName.getDiff,
        ToolName.filterFiles, ToolName.analyzeCode, ToolName.createReviewComment], true⟩
  else
    Except.error (PyError.unboundLocal "tools")

/-- `main_chain` from `src/main.py`: read the action from the environment,
defaulting to `"prreview"`, lower-case it, and select the chain. -/
def main_chain (envAction : Option String) : Except PyError SequentialChain :=
  sequentialChainForAction (envAction.getD "prreview").toLower

-- scratch checks
example : pySplitComma "" = [""] := by decide
example : excludePatterns "*.md, *.lock " = ["*.md", "*.lock"] := by decide
example : fnmatch "a.md" "*.md" = true := by decide
example : fnmatch "b.go" "*.md" = false := by decide
example : fnmatch "c.lock" "*.lock" = true := by decide
example : fnmatch "" "" = true := by decide
example : fnmatch "x" "" = false := by decide
example : fnmatch "abc" "a[b-d]c" = true := by decide
example : fnmatch "abc" "a[!b-d]c" = false := by decide
example : fnmatch "a[c" "a[c" = true := by decide
example :
    filter_files "*.md, *.lock "
      [⟨some "a.md", none⟩, ⟨some "b.go", none⟩, ⟨some "c.lock", none⟩]
      = [⟨some "b.go", none⟩] := by decide
example : filter_files "" [⟨some "", none⟩] = [] := by decide

/-! ## Helper lemmas -/

/-- The empty glob pattern matches exactly the empty character list. -/
theorem globAux_nil_pat (n : Nat) (s : List Char) : globAux n [] s = s.isEmpty := by
  cases n <;> rfl

/-- `fnmatch name ""` holds exactly when `name` is the empty string. -/
theorem fnmatch_empty_pat (name : String) : fnmatch name "" = true ↔ name = "" := by
  have h : ("".toList : List Char) = [] := rfl
  rw [fnmatch, globMatch, h, globAux_nil_pat]
  simp [String.toList, String.ext_iff]

/-- Membership in `filter_files` output, unfolded to a pattern-by-pattern
condition. -/
theorem mem_filter_files_iff (cfg : String) (files : List FileDiff) (f : FileDiff) :
    f ∈ filter_files cfg files ↔
      f ∈ files ∧ ∀ pat ∈ excludePatterns cfg, fnmatch (f.new_path.getD "") pat = false := by
  rw [filter_files, List.mem_filter]
  simp

/-! ## Claim theorems -/

/-- C1: for every list of `FileDiff` dictionaries and every exclusion
configuration string, `filter_files` returns a subsequence of the input
(relative order preserved) containing exactly those elements whose
`new_path` (defaulting to `""`) matches none of the comma-separated,
whitespace-trimmed glob patterns derived from the configuration. -/
theorem c1_filter_files_subsequence_exact (cfg : String) (files : List FileDiff) :
    (filter_files cfg files).Sublist files ∧
      ∀ f : FileDiff, f ∈ filter_files cfg files ↔
        f ∈ files ∧ ∀ pat ∈ excludePatterns cfg, fnmatch (f.new_path.getD "") pat = false :=
  ⟨List.filter_sublist _, fun f => mem_filter_files_iff cfg files f⟩

/-- Witness for C1 at a concrete configuration and file list. -/
theorem c1_filter_files_subsequence_exact_witness :
    FileDiff.mk (some "b.go") none ∈
      filter_files "*.md" [FileDiff.mk (some "a.md") none, FileDiff.mk (some "b.go") none] :=
  ((c1_filter_files_subsequence_exact "*.md"
      [FileDiff.mk (some "a.md") none, FileDiff.mk (some "b.go") none]).2
    (FileDiff.mk (some "b.go") none)).mpr ⟨by decide, by decide⟩

/-- C2 fails as stated: with the empty configuration string the derived
pattern list is `[""]`, and the empty pattern matches the empty path, so a
file whose `new_path` is `""` is excluded and the output differs from the
input. -/
theorem c2_counterexample :
    filter_files "" [FileDiff.mk (some "") none] ≠ [FileDiff.mk (some "") none] := by
  decide

/-- C2 (amended): when every trimmed pattern is empty (in particular when
the configuration string is empty), `filter_files` excludes nothing among
files whose `new_path` (defaulting to `""`) is non-empty: on every input
list all of whose files have a non-empty `new_path`, the output equals the
input. -/
theorem c2_all_empty_patterns_keep_nonempty_paths (cfg : String) (files : List FileDiff)
    (hpats : ∀ pat ∈ excludePatterns cfg, pat = "")
    (hpaths : ∀ f ∈ files, f.new_path.getD "" ≠ "") :
    filter_files cfg files = files := by
  rw [filter_files, List.filter_eq_self]
  intro f hf
  simp only [Bool.not_eq_eq_eq_not, Bool.not_true, List.any_eq_false]
  intro pat hpat
  rw [hpats pat hpat]
  intro hmatch
  exact hpaths f hf ((fnmatch_empty_pat _).mp hmatch)

/-- Witness for C2 (amended) at the empty configuration and a concrete
file list. -/
theorem c2_all_empty_patterns_keep_nonempty_paths_witness :
    filter_files "" [FileDiff.mk (some "a.md") none, FileDiff.mk (some "b.go") none] =
      [FileDiff.mk (some "a.md") none, FileDiff.mk (some "b.go") none] :=
  c2_all_empty_patterns_keep_nonempty_paths ""
    [FileDiff.mk (some "a.md") none, FileDiff.mk (some "b.go") none]
    (by decide) (by decide)

/-- C7: with configuration `"*.md, *.lock "` (patterns trimmed to `*.md`
and `*.lock`) and files `a.md`, `b.go`, `c.lock`, the filter keeps exactly
`b.go`. -/
theorem c7_filter_files_concrete :
    filter_files "*.md, *.lock "
        [FileDiff.mk (some "a.md") none, FileDiff.mk (some "b.go") none,
         FileDiff.mk (some "c.lock") none] =
      [FileDiff.mk (some "b.go") none] := by
  decide

/-- C10: a `FileDiff` lacking `new_path` is matched as if its path were the
empty string, so whenever some trimmed pattern is the empty string — in
particular when the configuration string is empty, where the derived
pattern list is `[""]` — every file missing `new_path` or having
`new_path = ""` is excluded from the output. -/
theorem c10_missing_new_path_excluded :
    excludePatterns "" = [""] ∧
      ∀ (cfg : String) (f : FileDiff) (files : List FileDiff),
        "" ∈ excludePatterns cfg →
        (f.new_path = none ∨ f.new_path = some "") →
        f ∉ filter_files cfg files := by
  refine ⟨by decide, fun cfg f files hpat hpath hmem => ?_⟩
  have hempty : f.new_path.getD "" = "" := by
    rcases hpath with h | h <;> simp [h]
  have hmatch : fnmatch (f.new_path.getD "") "" = true := by
    rw [hempty]
    exact (fnmatch_empty_pat "").mpr rfl
  have hnone := ((mem_filter_files_iff cfg files f).mp hmem).2 "" hpat
  rw [hmatch] at hnone
  exact Bool.noConfusion hnone

/-- Witness for C10: with the empty configuration, a file with no
`new_path` key is excluded. -/
theorem c10_missing_new_path_excluded_witness :
    FileDiff.mk none (some "d") ∉ filter_files "" [FileDiff.mk none (some "d")] :=
  c10_missing_new_path_excluded.2 "" (FileDiff.mk none (some "d"))
    [FileDiff.mk none (some "d")] (by decide) (Or.inl rfl)

/-- C3: `get_pr_details` is a total projection.  Its `pull_number` is the
event's `number` field (possibly absent); when `repository` is missing,
`owner` and `repo` default to `""`; when `pull_request` is missing, `title`
and `description` default to `""`; on an event missing all three keys the
result is all defaults. -/
theorem c3_get_pr_details_total_defaults (e : Event) :
    (get_pr_details e).pull_number = e.number ∧
    (e.repository = none → (get_pr_details e).owner = "" ∧ (get_pr_details e).repo = "") ∧
    (e.pull_request = none →
      (get_pr_details e).title = "" ∧ (get_pr_details e).description = "") ∧
    (e.repository = none → e.number = none → e.pull_request = none →
      get_pr_details e = PRDetails.mk "" "" none "" "") := by
  refine ⟨rfl, fun h => ?_, fun h => ?_, fun h1 h2 h3 => ?_⟩ <;>
    simp [get_pr_details, *]

/-- Witness for C3 at the empty event. -/
theorem c3_get_pr_details_total_defaults_witness :
    get_pr_details (Event.mk none none none) = PRDetails.mk "" "" none "" "" :=
  (c3_get_pr_details_total_defaults (Event.mk none none none)).2.2.2 rfl rfl rfl

/-- C8: `get_pr_details` on the concrete event with owner `octo`, repo
`repo`, number `42`, title `Fix bug` and body `desc` returns exactly those
fields. -/
theorem c8_get_pr_details_concrete :
    get_pr_details
        (Event.mk (some (Repository.mk (some (Owner.mk (some "octo"))) (some "repo")))
          (some 42) (some (PullRequest.mk (some "Fix bug") (some "desc")))) =
      PRDetails.mk "octo" "repo" (some 42) "Fix bug" "desc" := rfl

/-- C5: when the configured path names no existing file,
`read_github_event` raises the not-found error whose message contains the
attempted path (as a suffix); when the file exists, it returns the parsed
JSON payload of its contents. -/
theorem c5_read_github_event_spec (parse : String → Except String Event)
    (fs : String → Option String) (event_path : String) :
    (fs event_path = none →
      read_github_event parse fs event_path =
          Except.error (ERROR_MESSAGE_EVENT_FILE event_path) ∧
        event_path.toList <:+ (ERROR_MESSAGE_EVENT_FILE event_path).toList) ∧
    (∀ content, fs event_path = some content →
      read_github_event parse fs event_path = parse content) := by
  constructor
  · intro h
    refine ⟨by rw [read_github_event, h], "No GitHub event file found at ".toList, ?_⟩
    show "No GitHub event file found at ".data ++ event_path.data = _
    exact (String.data_append _ _).symm
  · intro content h
    rw [read_github_event, h]

/-- Witness for C5: a missing file produces the formatted error. -/
theorem c5_read_github_event_spec_witness :
    read_github_event (fun _ => Except.error "bad json") (fun _ => none)
        "/github/workflow/event.json" =
      Except.error (ERROR_MESSAGE_EVENT_FILE "/github/workflow/event.json") :=
  ((c5_read_github_event_spec (fun _ => Except.error "bad json") (fun _ => none)
      "/github/workflow/event.json").1 rfl).1

/-- C9: when `pull_number` is present, `create_review_comment` emits, for
each comment in input order, one block `Posting comment to PR <n>:\n<comment>`,
and always succeeds (it is a total function of its inputs). -/
theorem c9_create_review_comment_spec (pr_details : PRDetails) (n : Int)
    (comments : List String) (h : pr_details.pull_number = some n) :
    create_review_comment pr_details comments =
        comments.map (fun comment =>
          "Posting comment to PR " ++ toString n ++ ":\n" ++ comment) ∧
      (create_review_comment pr_details comments).length = comments.length := by
  constructor
  · simp [create_review_comment, h, pyStrOfNumber]
  · simp [create_review_comment]

/-- Witness for C9 at pull number 42 and two comments. -/
theorem c9_create_review_comment_spec_witness :
    create_review_comment (PRDetails.mk "octo" "repo" (some 42) "t" "d") ["LGTM", "Nit"] =
      ["Posting comment to PR 42:\nLGTM", "Posting comment to PR 42:\nNit"] := by
  rw [(c9_create_review_comment_spec (PRDetails.mk "octo" "repo" (some 42) "t" "d") 42
      ["LGTM", "Nit"] rfl).1]
  decide

/-- C4 (code bug): for every action other than `"prreview"` and `""`, the
selector leaves the local `tools` unassigned, so the code raises
`UnboundLocalError` — an obscure crash, not the clear configuration error
the spec requires. -/
theorem c4_unrecognized_action_unbound_local (action : String)
    (h1 : action ≠ "prreview") (h2 : action ≠ "") :
    sequentialChainForAction action = Except.error (PyError.unboundLocal "tools") := by
  rw [sequentialChainForAction, if_neg h1, if_neg h2]

/-- Witness for C4: the failing input `"deploy"` crashes with the unbound
local variable, not a configuration error. -/
theorem c4_unrecognized_action_unbound_local_witness :
    sequentialChainForAction "deploy" = Except.error (PyError.unboundLocal "tools") :=
  c4_unrecognized_action_unbound_local "deploy" (by decide) (by decide)

/-- `analyze_code` processes each file independently, so it distributes
over list concatenation. -/
theorem analyze_code_append (llm : String → String) (pr : PRDetails)
    (l1 l2 : List FileDiff) :
    analyze_code llm (l1 ++ l2) pr = analyze_code llm l1 pr ++ analyze_code llm l2 pr := by
  induction l1 with
  | nil => rfl
  | cons f rest ih =>
    cases hf : f.diff with
    | none => simp [analyze_code, hf, ih]
    | some d =>
      by_cases hd : d = "" <;>
        by_cases hr : llm (mkPrompt pr.title pr.description d) = "" <;>
          simp [analyze_code, hf, hd, hr, ih]

/-- On a single file, `analyze_code` yields nothing when the diff is
absent or empty or the model response is empty, and the one formatted
comment otherwise. -/
theorem analyze_code_singleton (llm : String → String) (pr : PRDetails) (f : FileDiff) :
    analyze_code llm [f] pr =
      match f.diff with
      | none => []
      | some d =>
        if d = "" then []
        else if llm (mkPrompt pr.title pr.description d) = "" then []
        else ["Comments for " ++ f.new_path.getD "unknown" ++ ":\n" ++
            llm (mkPrompt pr.title pr.description d)] := by
  cases hf : f.diff with
  | none => simp [analyze_code, hf]
  | some d =>
    by_cases hd : d = "" <;>
      by_cases hr : llm (mkPrompt pr.title pr.description d) = "" <;>
        simp [analyze_code, hf, hd, hr]

/-- C6: `analyze_code` equals a per-file `filterMap`: every file whose
diff is absent or empty is skipped silently, a file whose model response
is empty is also skipped, and every other file contributes exactly one
comment `Comments for {path}:\n{response}`, in input order.  The middle
clauses state each part at an arbitrary position of an arbitrary list: a
skippable file (absent or empty diff, or empty response) inserted anywhere
leaves the output unchanged, while a qualifying file inserted anywhere
contributes exactly its own comment at that position.  The last clause is
the claim's concrete instance: one empty-diff file followed by one
non-empty-diff file with a non-empty response produces exactly one
comment, for the second file. -/
theorem c6_analyze_code_spec (llm : String → String) (pr : PRDetails) :
    (∀ files : List FileDiff,
      analyze_code llm files pr = files.filterMap (fun f =>
        match f.diff with
        | none => none
        | some d =>
          if d = "" then none
          else if llm (mkPrompt pr.title pr.description d) = "" then none
          else some ("Comments for " ++ f.new_path.getD "unknown" ++ ":\n" ++
              llm (mkPrompt pr.title pr.description d)))) ∧
    (∀ (l1 l2 : List FileDiff) (f : FileDiff),
      f.diff = none ∨ f.diff = some "" →
      analyze_code llm (l1 ++ f :: l2) pr = analyze_code llm (l1 ++ l2) pr) ∧
    (∀ (l1 l2 : List FileDiff) (f : FileDiff) (d : String),
      f.diff = some d → d ≠ "" → llm (mkPrompt pr.title pr.description d) = "" →
      analyze_code llm (l1 ++ f :: l2) pr = analyze_code llm (l1 ++ l2) pr) ∧
    (∀ (l1 l2 : List FileDiff) (f : FileDiff) (d : String),
      f.diff = some d → d ≠ "" → llm (mkPrompt pr.title pr.description d) ≠ "" →
      analyze_code llm (l1 ++ f :: l2) pr =
        analyze_code llm l1 pr ++
          ("Comments for " ++ f.new_path.getD "unknown" ++ ":\n" ++
              llm (mkPrompt pr.title pr.description d)) :: analyze_code llm l2 pr) ∧
    (∀ (f1 f2 : FileDiff) (d : String),
      (f1.diff = none ∨ f1.diff = some "") → f2.diff = some d → d ≠ "" →
      llm (mkPrompt pr.title pr.description d) ≠ "" →
      analyze_code llm [f1, f2] pr =
        ["Comments for " ++ f2.new_path.getD "unknown" ++ ":\n" ++
          llm (mkPrompt pr.title pr.description d)]) := by
  have hsplit : ∀ (l1 l2 : List FileDiff) (f : FileDiff),
      analyze_code llm (l1 ++ f :: l2) pr =
        analyze_code llm l1 pr ++ analyze_code llm [f] pr ++ analyze_code llm l2 pr := by
    intro l1 l2 f
    rw [show l1 ++ f :: l2 = (l1 ++ [f]) ++ l2 by simp, analyze_code_append,
      analyze_code_append]
  refine ⟨?_, ?_, ?_, ?_, ?_⟩
  · intro files
    induction files with
    | nil => rfl
    | cons f rest ih =>
      cases hf : f.diff with
      | none => simp [analyze_code, List.filterMap_cons, hf, ih]
      | some d =>
        by_cases hd : d = "" <;>
          by_cases hr : llm (mkPrompt pr.title pr.description d) = "" <;>
            simp [analyze_code, List.filterMap_cons, hf, hd, hr, ih]
  · intro l1 l2 f hf
    rw [hsplit, analyze_code_append, analyze_code_singleton]
    rcases hf with h | h <;> simp [h]
  · intro l1 l2 f d hf hd hr
    rw [hsplit, analyze_code_append, analyze_code_singleton, hf]
    simp [hd, hr]
  · intro l1 l2 f d hf hd hr
    rw [hsplit, analyze_code_singleton, hf]
    simp [hd, hr]
  · intro f1 f2 d h1 h2 hd hr
    rcases h1 with h | h <;>
      simp [analyze_code, h, h2, if_neg hd, if_neg hr]

/-- Witness for C6: one empty-diff file, one non-empty-diff file, a model
that always answers `ok` — exactly one comment, for the second file. -/
theorem c6_analyze_code_spec_witness :
    analyze_code (fun _ => "ok")
        [FileDiff.mk (some "a") (some ""), FileDiff.mk (some "b") (some "x")]
        (PRDetails.mk "" "" none "" "") = ["Comments for b:\nok"] := by
  rw [(c6_analyze_code_spec (fun _ => "ok") (PRDetails.mk "" "" none "" "")).2.2.2.2
      (FileDiff.mk (some "a") (some "")) (FileDiff.mk (some "b") (some "x")) "x"
      (Or.inr rfl) rfl (by decide) (by decide)]
  decide
